import Mathlib

/-!
Shallow embedding of the PGS (presentation-graphics stream) segment decoder
from src/pgs/reader.go.  The byte source is modelled as a list of natural
numbers (each byte taken modulo 256 where a field is assembled); a decoder
step is a function from the remaining stream to an Except value carrying
either an error or the decoded value together with the unconsumed stream.
The segment/field layouts and the enumerated constants live in a companion
file of the repository that is not present under src/; they are modelled
from the spec where noted.
-/

namespace PGS

/-- A byte stream: the sequential byte source feeding the decoder. -/
abbrev Bytes : Type := List Nat

/-- Big-endian assembly of a 2-byte field (each byte reduced mod 256),
mirroring encoding/binary big-endian decoding of a uint16. -/
def be2 (a b : Nat) : Nat := (a % 256) * 256 + b % 256

/-- Big-endian assembly of a 3-byte field, mirroring the uint24 type's
Uint32 conversion. Modelled from the spec: a 3-byte big-endian
total-data-length. -/
def be3 (a b c : Nat) : Nat := ((a % 256) * 256 + b % 256) * 256 + c % 256

/-- Big-endian assembly of a 4-byte field (uint32). -/
def be4 (a b c d : Nat) : Nat :=
  (((a % 256) * 256 + b % 256) * 256 + c % 256) * 256 + d % 256

/-- Modelled from the spec: the five recognized segment type tags
(pcsType, wdsType, pdsType, odsType, endType); their byte values are
defined in the repository file missing from src/. -/
def pcsType : Nat := 0x16

/-- Modelled from the spec: window definition segment tag. -/
def wdsType : Nat := 0x17

/-- Modelled from the spec: palette definition segment tag. -/
def pdsType : Nat := 0x14

/-- Modelled from the spec: object definition segment tag. -/
def odsType : Nat := 0x15

/-- Modelled from the spec: end-of-composition marker segment tag. -/
def endType : Nat := 0x80

/-- Modelled from the spec: the composition state Normal, one of the three
legal values of the composition-state byte. -/
def Normal : Nat := 0x00

/-- Modelled from the spec: the composition state AcquisitionPoint. -/
def AcquisitionPoint : Nat := 0x40

/-- Modelled from the spec: the composition state EpochStart. -/
def EpochStart : Nat := 0x80

/-- Modelled from the spec: the single legal "true" bit of the
palette-update flag byte. -/
def pufTrue : Nat := 0x80

/-- Modelled from the spec: the single legal "forced" value of the
per-object crop flag byte. -/
def croppedForce : Nat := 0x40

/-- Modelled from the spec: the first-in-sequence bit of the object
segment's sequence-flags byte. -/
def firstInSequence : Nat := 0x80

/-- Modelled from the spec: the last-in-sequence bit of the object
segment's sequence-flags byte. -/
def lastInSequence : Nat := 0x40

/-- Modelled from the spec: the duration derived from a 90 kHz tick
counter by dividing the tick count by 90000 (expressed in nanoseconds,
the unit of the target duration type). -/
def ticksDuration (t : Nat) : Nat := t * 1000000000 / 90000

/-- Decoder errors. Each constructor corresponds to one error return in
src/pgs/reader.go; wrapper constructors mirror error wrapping with a
context message. The spec's error classes map as: eof = EndOfStream (and,
propagated from the object payload loop, TruncatedPayload); headerErr,
badMagic, badSegmentType = MalformedHeader; badCompositionState,
badPaletteUpdateFlag, badCropFlag, badSequenceFlag = UnrecognizedValue;
pcsSizeMismatch, wdsSizeMismatch = SizeMismatch; pdsInvalidSize =
InvalidSize; invalidDataLength = InvalidLength; duplicateId =
DuplicateID. -/
inductive Err : Type where
  | eof : Err
  | unexpectedEOF : Err
  | headerErr : Err → Err
  | badMagic : Nat → Err
  | badSegmentType : Nat → Err
  | pcsWrap : Err → Err
  | wdsWrap : Err → Err
  | pdsWrap : Err → Err
  | odsWrap : Err → Err
  | badCompositionState : Nat → Err
  | badPaletteUpdateFlag : Nat → Err
  | compositionObjectErr : Nat → Nat → Err → Err
  | badCropFlag : Nat → Nat → Nat → Err
  | pcsSizeMismatch : Nat → Nat → Err
  | wdsSizeMismatch : Nat → Nat → Nat → Err
  | pdsInvalidSize : Nat → Err
  | paletteEntryErr : Nat → Nat → Err → Err
  | duplicateId : Nat → Nat → Nat → Err
  | badSequenceFlag : Nat → Err
  | invalidDataLength : Err
  deriving Repr, DecidableEq

/-- Crop rectangle of a composition object (X, Y, width, height), an
8-byte record of four big-endian uint16 fields. -/
structure CompositionObjectCrop : Type where
  x : Nat
  y : Nat
  width : Nat
  height : Nat
  deriving Repr, DecidableEq

/-- One composition object entry: object ID (uint16), window ID (uint8),
on-screen X/Y (uint16 each), plus the optional crop rectangle. -/
structure CompositionObject : Type where
  objectId : Nat
  windowId : Nat
  x : Nat
  y : Nat
  crop : Option CompositionObjectCrop := none
  deriving Repr, DecidableEq

/-- Decoded presentation composition segment payload. -/
structure PresentationComposition : Type where
  width : Nat
  height : Nat
  frameRate : Nat
  compositionNumber : Nat
  compositionState : Nat
  paletteUpdate : Bool
  paletteId : Nat
  objects : List CompositionObject
  deriving Repr, DecidableEq

/-- One window record (ID uint8, X, Y, width, height uint16 each):
a fixed 9-byte layout. -/
structure Window : Type where
  id : Nat
  x : Nat
  y : Nat
  width : Nat
  height : Nat
  deriving Repr, DecidableEq

/-- One palette entry (ID, luma, chroma-red, chroma-blue, alpha, one byte
each): a fixed 5-byte layout. -/
structure PaletteEntry : Type where
  id : Nat
  y : Nat
  cr : Nat
  cb : Nat
  alpha : Nat
  deriving Repr, DecidableEq

/-- Decoded palette segment payload. -/
structure Palette : Type where
  id : Nat
  version : Nat
  entries : List PaletteEntry
  deriving Repr, DecidableEq

/-- Decoded object segment payload. -/
structure Object : Type where
  id : Nat
  version : Nat
  first : Bool
  last : Bool
  width : Nat
  height : Nat
  objectData : List Nat
  deriving Repr, DecidableEq

/-- The polymorphic segment payload: one of the four decoded bodies, or
none for the end-of-composition marker (the Go Segment carries a nil Data
interface there). -/
inductive SegmentData : Type where
  | pcs : PresentationComposition → SegmentData
  | wds : List Window → SegmentData
  | pds : Palette → SegmentData
  | ods : Object → SegmentData
  | none : SegmentData
  deriving Repr, DecidableEq

/-- One decoded segment: the two timestamps (converted from 90 kHz ticks)
and the payload. -/
structure Segment : Type where
  presentationTime : Nat
  decodingTime : Nat
  data : SegmentData
  deriving Repr, DecidableEq

/-- Number of composition objects carrying a crop rectangle. -/
def countCrops (objs : List CompositionObject) : Nat :=
  objs.countP (fun o => o.crop.isSome)

/-- The loop of readPresentationComposition (reader.go lines 84-109): read
one 8-byte composition-object record per iteration, validate its crop flag,
optionally read the 8-byte crop record, and accumulate the consumed size.
n is the declared object count (for error messages), i the 0-based index of
the next object, r the number of objects still to read, size the bytes
consumed so far. binary.Read failure on a record surfaces as
compositionObjectErr i+1 n; a failed crop read propagates unwrapped. -/
def readCompositionObjects (n : Nat) :
    Nat → Nat → Nat → Bytes → Except Err (List CompositionObject × Nat × Bytes)
  | _, 0, size, s => .ok ([], size, s)
  | i, r + 1, size, s =>
    match s with
    | o1 :: o2 :: w :: cf :: x1 :: x2 :: y1 :: y2 :: s1 =>
      let obj : CompositionObject :=
        { objectId := be2 o1 o2, windowId := w % 256, x := be2 x1 x2, y := be2 y1 y2 }
      if (cf % 256) &&& (255 ^^^ croppedForce) ≠ 0 then
        .error (.badCropFlag (i + 1) n (cf % 256))
      else if cf % 256 = croppedForce then
        match s1 with
        | c1 :: c2 :: c3 :: c4 :: c5 :: c6 :: c7 :: c8 :: s2 =>
          let crop : CompositionObjectCrop :=
            { x := be2 c1 c2, y := be2 c3 c4, width := be2 c5 c6, height := be2 c7 c8 }
          match readCompositionObjects n (i + 1) r (size + 8 + 8) s2 with
          | .ok (objs, sz, s3) => .ok ({ obj with crop := some crop } :: objs, sz, s3)
          | .error e => .error e
        | [] => .error .eof
        | _ => .error .unexpectedEOF
      else
        match readCompositionObjects n (i + 1) r (size + 8) s1 with
        | .ok (objs, sz, s3) => .ok (obj :: objs, sz, s3)
        | .error e => .error e
    | [] => .error (.compositionObjectErr (i + 1) n .eof)
    | _ => .error (.compositionObjectErr (i + 1) n .unexpectedEOF)

/-- readPresentationComposition (reader.go lines 70-124): read the fixed
11-byte composition header, validate the composition state and the
palette-update flag, read the composition objects, then check the computed
size against the declared segment size. -/
def readPresentationComposition (segmentSize : Nat) (s : Bytes) :
    Except Err (PresentationComposition × Bytes) :=
  match s with
  | w1 :: w2 :: h1 :: h2 :: fr :: n1 :: n2 :: cs :: puf :: pid :: oc :: s1 =>
    let compositionState := cs % 256
    let paletteUpdateFlag := puf % 256
    let objectCount := oc % 256
    if compositionState = Normal ∨ compositionState = AcquisitionPoint ∨
        compositionState = EpochStart then
      if paletteUpdateFlag &&& (255 ^^^ pufTrue) ≠ 0 then
        .error (.badPaletteUpdateFlag paletteUpdateFlag)
      else
        match readCompositionObjects objectCount 0 objectCount 11 s1 with
        | .error e => .error e
        | .ok (objects, size, s2) =>
          if size ≠ segmentSize then
            .error (.pcsSizeMismatch size segmentSize)
          else
            .ok ({ width := be2 w1 w2, height := be2 h1 h2, frameRate := fr % 256,
                   compositionNumber := be2 n1 n2, compositionState := compositionState,
                   paletteUpdate := paletteUpdateFlag &&& pufTrue != 0,
                   paletteId := pid % 256, objects := objects }, s2)
    else
      .error (.badCompositionState compositionState)
  | [] => .error .eof
  | _ => .error .unexpectedEOF

/-- The loop of readWindows (reader.go lines 135-140): read the given
number of fixed 9-byte window records. -/
def readWindowList : Nat → Bytes → Except Err (List Window × Bytes)
  | 0, s => .ok ([], s)
  | n + 1, s =>
    match s with
    | i :: x1 :: x2 :: y1 :: y2 :: w1 :: w2 :: h1 :: h2 :: s1 =>
      match readWindowList n s1 with
      | .ok (ws, s2) =>
        .ok ({ id := i % 256, x := be2 x1 x2, y := be2 y1 y2,
               width := be2 w1 w2, height := be2 h1 h2 } :: ws, s2)
      | .error e => .error e
    | [] => .error .eof
    | _ => .error .unexpectedEOF

/-- readWindows (reader.go lines 126-142): read the 1-byte window count,
validate the declared segment size equals 9*count+1 before reading any
window record, then read the window records. -/
def readWindows (segmentSize : Nat) (s : Bytes) : Except Err (List Window × Bytes) :=
  match s with
  | wc :: s1 =>
    let windowCount := wc % 256
    if segmentSize ≠ 9 * windowCount + 1 then
      .error (.wdsSizeMismatch segmentSize (9 * windowCount + 1) windowCount)
    else
      readWindowList windowCount s1
  | [] => .error .eof

/-- The loop of readPalette (reader.go lines 155-164): read fixed 5-byte
palette entries, tracking seen entry IDs and failing with duplicateId at
the first repetition. n is the total entry count (for error messages),
i the 0-based index of the next entry, r the entries still to read. -/
def readPaletteEntries (n : Nat) :
    Nat → Nat → List Nat → Bytes → Except Err (List PaletteEntry × Bytes)
  | _, 0, _, s => .ok ([], s)
  | i, r + 1, seen, s =>
    match s with
    | eid :: ey :: ecr :: ecb :: ea :: s1 =>
      let entry : PaletteEntry :=
        { id := eid % 256, y := ey % 256, cr := ecr % 256, cb := ecb % 256, alpha := ea % 256 }
      if entry.id ∈ seen then
        .error (.duplicateId i n entry.id)
      else
        match readPaletteEntries n (i + 1) r (entry.id :: seen) s1 with
        | .ok (es, s2) => .ok (entry :: es, s2)
        | .error e => .error e
    | [] => .error (.paletteEntryErr i n .eof)
    | _ => .error (.paletteEntryErr i n .unexpectedEOF)

/-- readPalette (reader.go lines 144-171): validate the declared segment
size modulo 5 equals 2 before reading anything, read the 2-byte palette
header, derive the entry count (segmentSize-2)/5 and read the entries. -/
def readPalette (segmentSize : Nat) (s : Bytes) : Except Err (Palette × Bytes) :=
  if segmentSize % 5 ≠ 2 then
    .error (.pdsInvalidSize segmentSize)
  else
    match s with
    | pid :: pver :: s1 =>
      let n := (segmentSize - 2) / 5
      match readPaletteEntries n 0 n [] s1 with
      | .ok (entries, s2) =>
        .ok ({ id := pid % 256, version := pver % 256, entries := entries }, s2)
      | .error e => .error e
    | [] => .error .eof
    | _ => .error .unexpectedEOF

/-- The blocking retry-on-short-read loop of readObject (reader.go lines
185-193), over a byte source modelled as a list of chunks: one Read call
returns bytes from the head chunk, at most the space left in the buffer;
an exhausted source makes Read return the io EOF error, which the loop
propagates unwrapped. Returns the accumulated payload and the unconsumed
part of the source. -/
def readExactLoop : List (List Nat) → Nat → Except Err (List Nat × List (List Nat))
  | chunks, 0 => .ok ([], chunks)
  | [], _ + 1 => .error .eof
  | c :: rest, need + 1 =>
    if c.length ≤ need + 1 then
      match readExactLoop rest (need + 1 - c.length) with
      | .ok (bs, rem) => .ok (c ++ bs, rem)
      | .error e => .error e
    else
      .ok (c.take (need + 1), c.drop (need + 1) :: rest)

/-- readObject (reader.go lines 173-204): read the fixed 11-byte object
header, validate the sequence flags, compute the payload length as the
3-byte total-data-length minus 4 (failing if that underflows), then run
the exact-read loop for the payload. The declared segment size parameter
is never used. The flat byte stream is passed to the loop as a single
chunk and the unconsumed chunks are flattened back. -/
def readObject (segmentSize : Nat) (s : Bytes) : Except Err (Object × Bytes) :=
  match s with
  | o1 :: o2 :: ver :: sf :: l1 :: l2 :: l3 :: w1 :: w2 :: h1 :: h2 :: s1 =>
    let sequenceFlag := sf % 256
    if sequenceFlag &&& (255 ^^^ (firstInSequence ||| lastInSequence)) ≠ 0 then
      .error (.badSequenceFlag sequenceFlag)
    else if be3 l1 l2 l3 < 4 then
      .error .invalidDataLength
    else
      match readExactLoop [s1] (be3 l1 l2 l3 - 4) with
      | .ok (data, rem) =>
        .ok ({ id := be2 o1 o2, version := ver % 256,
               first := sequenceFlag &&& firstInSequence != 0,
               last := sequenceFlag &&& lastInSequence != 0,
               width := be2 w1 w2, height := be2 h1 h2,
               objectData := data }, rem.flatten)
      | .error e => .error e
  | [] => .error .eof
  | _ => .error .unexpectedEOF

/-- ReadSegment (reader.go lines 17-68): read the fixed 13-byte header
(magic uint16, presentation and decoding timestamps uint32 each, type tag
uint8, body size uint16). An empty source yields the bare eof error; a
source exhausted mid-header yields the wrapped header error; then the
magic constant and the type tag are validated and the body parser is
dispatched, with its error wrapped per segment kind. The end-marker tag
has no body parser. -/
def ReadSegment (s : Bytes) : Except Err (Segment × Bytes) :=
  match s with
  | m1 :: m2 :: p1 :: p2 :: p3 :: p4 :: d1 :: d2 :: d3 :: d4 :: t :: z1 :: z2 :: rest =>
    let magic := be2 m1 m2
    let segmentType := t % 256
    let segmentSize := be2 z1 z2
    if magic ≠ 0x5047 then
      .error (.badMagic magic)
    else if segmentType = pcsType ∨ segmentType = wdsType ∨ segmentType = pdsType ∨
        segmentType = odsType ∨ segmentType = endType then
      let pt := ticksDuration (be4 p1 p2 p3 p4)
      let dt := ticksDuration (be4 d1 d2 d3 d4)
      if segmentType = pcsType then
        match readPresentationComposition segmentSize rest with
        | .ok (pc, s2) => .ok ({ presentationTime := pt, decodingTime := dt, data := .pcs pc }, s2)
        | .error e => .error (.pcsWrap e)
      else if segmentType = wdsType then
        match readWindows segmentSize rest with
        | .ok (ws, s2) => .ok ({ presentationTime := pt, decodingTime := dt, data := .wds ws }, s2)
        | .error e => .error (.wdsWrap e)
      else if segmentType = pdsType then
        match readPalette segmentSize rest with
        | .ok (p, s2) => .ok ({ presentationTime := pt, decodingTime := dt, data := .pds p }, s2)
        | .error e => .error (.pdsWrap e)
      else if segmentType = odsType then
        match readObject segmentSize rest with
        | .ok (o, s2) => .ok ({ presentationTime := pt, decodingTime := dt, data := .ods o }, s2)
        | .error e => .error (.odsWrap e)
      else
        .ok ({ presentationTime := pt, decodingTime := dt, data := .none }, rest)
    else
      .error (.badSegmentType segmentType)
  | [] => .error .eof
  | _ => .error (.headerErr .unexpectedEOF)

theorem countCrops_nil : countCrops [] = 0 := rfl

theorem countCrops_cons (o : CompositionObject) (l : List CompositionObject) :
    countCrops (o :: l) = countCrops l + (if o.crop.isSome then 1 else 0) := by
  simp [countCrops, List.countP_cons]

/-- The declared segment size parameter of readObject is never used. -/
theorem readObject_size_irrel (sz1 sz2 : Nat) (s : Bytes) :
    readObject sz1 s = readObject sz2 s := rfl

/-- The composition-object loop, on success, returns exactly the requested
number of objects and accumulates 8 bytes per object plus 8 per crop. -/
theorem readCompositionObjects_ok (n : Nat) :
    ∀ r i size0 s objs size s2,
      readCompositionObjects n i r size0 s = .ok (objs, size, s2) →
      objs.length = r ∧ size = size0 + 8 * r + 8 * countCrops objs := by
  intro r
  induction r with
  | zero =>
    intro i size0 s objs size s2 h
    simp only [readCompositionObjects, Except.ok.injEq, Prod.mk.injEq] at h
    obtain ⟨h1, h2, _⟩ := h
    subst h1
    subst h2
    simp [countCrops]
  | succ r ih =>
    intro i size0 s objs size s2 h
    rcases s with _ | ⟨o1, _ | ⟨o2, _ | ⟨w, _ | ⟨cf, _ | ⟨x1, _ | ⟨x2, _ | ⟨y1, _ | ⟨y2, s1⟩⟩⟩⟩⟩⟩⟩⟩ <;>
      simp only [readCompositionObjects] at h <;> try exact Except.noConfusion h
    split at h
    · exact Except.noConfusion h
    · split at h
      · split at h
        · split at h
          · rename_i objs1 sz1 s3 hrec
            simp only [Except.ok.injEq, Prod.mk.injEq] at h
            obtain ⟨h1, h2, _⟩ := h
            obtain ⟨hl, hs⟩ := ih _ _ _ _ _ _ hrec
            subst h1
            subst h2
            refine ⟨by simp [hl], ?_⟩
            rw [hs, countCrops_cons]
            simp
            omega
          · exact Except.noConfusion h
        · exact Except.noConfusion h
        · exact Except.noConfusion h
      · split at h
        · rename_i objs1 sz1 s3 hrec
          simp only [Except.ok.injEq, Prod.mk.injEq] at h
          obtain ⟨h1, h2, _⟩ := h
          obtain ⟨hl, hs⟩ := ih _ _ _ _ _ _ hrec
          subst h1
          subst h2
          refine ⟨by simp [hl], ?_⟩
          rw [hs, countCrops_cons]
          simp
          omega
        · exact Except.noConfusion h

/-- The window-record loop, on success, returns exactly the requested
number of windows. -/
theorem readWindowList_ok_length :
    ∀ n s ws s2, readWindowList n s = .ok (ws, s2) → ws.length = n := by
  intro n
  induction n with
  | zero =>
    intro s ws s2 h
    simp only [readWindowList, Except.ok.injEq, Prod.mk.injEq] at h
    obtain ⟨h1, _⟩ := h
    subst h1
    rfl
  | succ n ih =>
    intro s ws s2 h
    rcases s with _ | ⟨i, _ | ⟨x1, _ | ⟨x2, _ | ⟨y1, _ | ⟨y2, _ | ⟨w1, _ | ⟨w2, _ | ⟨h1b, _ | ⟨h2b, s1⟩⟩⟩⟩⟩⟩⟩⟩⟩ <;>
      simp only [readWindowList] at h <;> try exact Except.noConfusion h
    split at h
    · rename_i ws1 s3 hrec
      simp only [Except.ok.injEq, Prod.mk.injEq] at h
      obtain ⟨h1, _⟩ := h
      subst h1
      simp [ih _ _ _ hrec]
    · exact Except.noConfusion h

/-- The palette-entry loop, on success, returns exactly the requested
number of entries, with entry IDs pairwise distinct and disjoint from the
already-seen set. -/
theorem readPaletteEntries_ok (n : Nat) :
    ∀ r i seen s es s2, readPaletteEntries n i r seen s = .ok (es, s2) →
      es.length = r ∧ (es.map PaletteEntry.id).Nodup ∧ ∀ e ∈ es, e.id ∉ seen := by
  intro r
  induction r with
  | zero =>
    intro i seen s es s2 h
    simp only [readPaletteEntries, Except.ok.injEq, Prod.mk.injEq] at h
    obtain ⟨h1, _⟩ := h
    subst h1
    simp
  | succ r ih =>
    intro i seen s es s2 h
    rcases s with _ | ⟨eid, _ | ⟨ey, _ | ⟨ecr, _ | ⟨ecb, _ | ⟨ea, s1⟩⟩⟩⟩⟩ <;>
      simp only [readPaletteEntries] at h <;> try exact Except.noConfusion h
    split at h
    · exact Except.noConfusion h
    · rename_i hmem
      split at h
      · rename_i es1 s3 hrec
        simp only [Except.ok.injEq, Prod.mk.injEq] at h
        obtain ⟨h1, _⟩ := h
        subst h1
        obtain ⟨hl, hnd, hdisj⟩ := ih _ _ _ _ _ hrec
        refine ⟨by simp [hl], ?_, ?_⟩
        · simp only [List.map_cons, List.nodup_cons]
          constructor
          · intro hin
            obtain ⟨e, he, heid⟩ := List.mem_map.mp hin
            exact hdisj e he (by simp [heid])
          · exact hnd
        · intro e he
          rcases List.mem_cons.mp he with h0 | h0
          · subst h0
            exact hmem
          · intro hseen
            exact hdisj e h0 (List.mem_cons_of_mem _ hseen)
      · exact Except.noConfusion h

/-- The exact-read loop, on success, returns exactly the requested number
of bytes. -/
theorem readExactLoop_ok_length :
    ∀ chunks need bs rem, readExactLoop chunks need = .ok (bs, rem) → bs.length = need := by
  intro chunks
  induction chunks with
  | nil =>
    intro need bs rem h
    cases need with
    | zero =>
      simp only [readExactLoop, Except.ok.injEq, Prod.mk.injEq] at h
      obtain ⟨h1, _⟩ := h
      subst h1
      rfl
    | succ m => exact Except.noConfusion h
  | cons c rest ih =>
    intro need bs rem h
    cases need with
    | zero =>
      simp only [readExactLoop, Except.ok.injEq, Prod.mk.injEq] at h
      obtain ⟨h1, _⟩ := h
      subst h1
      rfl
    | succ m =>
      simp only [readExactLoop] at h
      split at h
      · rename_i hle
        split at h
        · rename_i bs1 rem1 hrec
          simp only [Except.ok.injEq, Prod.mk.injEq] at h
          obtain ⟨h1, _⟩ := h
          subst h1
          have := ih _ _ _ hrec
          simp only [List.length_append, this]
          omega
        · exact Except.noConfusion h
      · rename_i hgt
        simp only [Except.ok.injEq, Prod.mk.injEq] at h
        obtain ⟨h1, _⟩ := h
        subst h1
        simp only [List.length_take]
        omega

/-- The exact-read loop succeeds when the source holds at least the
requested number of bytes, returning exactly the first bytes of the
flattened source. -/
theorem readExactLoop_complete :
    ∀ chunks need, need ≤ chunks.flatten.length →
      ∃ rem, readExactLoop chunks need = .ok (chunks.flatten.take need, rem) ∧
        rem.flatten = chunks.flatten.drop need := by
  intro chunks
  induction chunks with
  | nil =>
    intro need hle
    simp only [List.flatten_nil, List.length_nil, Nat.le_zero] at hle
    subst hle
    exact ⟨[], rfl, rfl⟩
  | cons c rest ih =>
    intro need hle
    cases need with
    | zero => exact ⟨c :: rest, rfl, rfl⟩
    | succ m =>
      simp only [readExactLoop]
      by_cases hcl : c.length ≤ m + 1
      · rw [if_pos hcl]
        have hle2 : m + 1 - c.length ≤ rest.flatten.length := by
          simp only [List.flatten_cons, List.length_append] at hle
          omega
        obtain ⟨rem, hrec, hdrop⟩ := ih _ hle2
        rw [hrec]
        refine ⟨rem, ?_, ?_⟩
        · simp only [List.flatten_cons, Except.ok.injEq, Prod.mk.injEq]
          refine ⟨?_, trivial⟩
          rw [List.take_append_eq_append_take, List.take_of_length_le hcl]
        · rw [hdrop]
          simp only [List.flatten_cons]
          rw [List.drop_append_eq_append_drop, List.drop_of_length_le hcl]
          simp
      · rw [if_neg hcl]
        push_neg at hcl
        refine ⟨c.drop (m + 1) :: rest, ?_, ?_⟩
        · simp only [List.flatten_cons, Except.ok.injEq, Prod.mk.injEq]
          refine ⟨?_, trivial⟩
          rw [List.take_append_of_le_length (by omega)]
        · simp only [List.flatten_cons]
          rw [List.drop_append_of_le_length (by omega)]

/-- The exact-read loop fails with the propagated end-of-stream error when
the source is exhausted before the requested number of bytes arrive. -/
theorem readExactLoop_short :
    ∀ chunks need, chunks.flatten.length < need → readExactLoop chunks need = .error .eof := by
  intro chunks
  induction chunks with
  | nil =>
    intro need hlt
    cases need with
    | zero => exact absurd hlt (by simp)
    | succ m => rfl
  | cons c rest ih =>
    intro need hlt
    cases need with
    | zero => exact absurd hlt (by simp)
    | succ m =>
      simp only [List.flatten_cons, List.length_append] at hlt
      have hcl : c.length ≤ m + 1 := by omega
      simp only [readExactLoop]
      rw [if_pos hcl]
      rw [ih (m + 1 - c.length) (by omega)]


/-- C3: For every palette segment, if the declared body size modulo 5 is
not 2 the parser fails with an InvalidSize error before reading any body
bytes (the error is independent of the stream); otherwise it decodes
exactly (bodySize - 2) / 5 palette entries, so body size 7 yields 1 entry
and succeeds while body size 6 fails, and body size 2 yields an empty
entry list. -/
theorem C3_palette_size :
    (∀ segmentSize : Nat, ∀ s : Bytes, segmentSize % 5 ≠ 2 →
        readPalette segmentSize s = .error (.pdsInvalidSize segmentSize))
    ∧ (∀ segmentSize : Nat, ∀ s : Bytes, ∀ p s2, readPalette segmentSize s = .ok (p, s2) →
        p.entries.length = (segmentSize - 2) / 5)
    ∧ readPalette 7 [0, 0, 1, 2, 3, 4, 5] =
        .ok ({ id := 0, version := 0,
               entries := [{ id := 1, y := 2, cr := 3, cb := 4, alpha := 5 }] }, [])
    ∧ readPalette 6 [0, 0, 1, 2, 3, 4] = .error (.pdsInvalidSize 6)
    ∧ readPalette 2 [9, 8] = .ok ({ id := 9, version := 8, entries := [] }, []) := by
  refine ⟨?_, ?_, rfl, rfl, rfl⟩
  · intro segmentSize s h
    simp only [readPalette]
    rw [if_pos h]
  · intro segmentSize s p s2 h
    simp only [readPalette] at h
    split at h
    · exact Except.noConfusion h
    · split at h
      · split at h
        · rename_i entries s3 hrec
          simp only [Except.ok.injEq, Prod.mk.injEq] at h
          obtain ⟨h1, _⟩ := h
          subst h1
          exact (readPaletteEntries_ok _ _ _ _ _ _ _ hrec).1
        · exact Except.noConfusion h
      · exact Except.noConfusion h
      · exact Except.noConfusion h

/-- C4: For every window segment, the parser reads the 1-byte window count
and then fails with a SizeMismatch error, before reading any window record
(the error is independent of the remaining stream), whenever the declared
body size does not equal 9*count + 1; body size 1 with count byte 0
succeeds and returns an empty window list, and on success exactly count
windows are decoded. -/
theorem C4_window_size :
    (∀ segmentSize wc : Nat, ∀ rest : List Nat, segmentSize ≠ 9 * (wc % 256) + 1 →
        readWindows segmentSize (wc :: rest) =
          .error (.wdsSizeMismatch segmentSize (9 * (wc % 256) + 1) (wc % 256)))
    ∧ (∀ segmentSize : Nat, ∀ s : Bytes, ∀ ws s2, readWindows segmentSize s = .ok (ws, s2) →
        ∃ wc rest, s = wc :: rest ∧ ws.length = wc % 256 ∧ segmentSize = 9 * (wc % 256) + 1)
    ∧ ∀ rest : List Nat, readWindows 1 (0 :: rest) = .ok ([], rest) := by
  refine ⟨?_, ?_, fun rest => rfl⟩
  · intro segmentSize wc rest h
    simp only [readWindows]
    rw [if_pos h]
  · intro segmentSize s ws s2 h
    rcases s with _ | ⟨wc, rest⟩
    · exact Except.noConfusion h
    · simp only [readWindows] at h
      split at h
      · exact Except.noConfusion h
      · rename_i hsz
        push_neg at hsz
        exact ⟨wc, rest, rfl, readWindowList_ok_length _ _ _ _ h, hsz⟩

/-- C5: For every palette segment containing two entries with the same ID,
decoding fails with a DuplicateID error at the first repeated entry, with
the entry position in the diagnostic, and never silently overwrites;
consequently every successfully decoded palette has pairwise-distinct
entry IDs. -/
theorem C5_palette_duplicate :
    (∀ segmentSize : Nat, ∀ s : Bytes, ∀ p s2, readPalette segmentSize s = .ok (p, s2) →
        (p.entries.map PaletteEntry.id).Nodup)
    ∧ (∀ n i r : Nat, ∀ seen : List Nat, ∀ eid ey ecr ecb ea : Nat, ∀ s1 : List Nat,
        (eid % 256) ∈ seen →
        readPaletteEntries n i (r + 1) seen (eid :: ey :: ecr :: ecb :: ea :: s1) =
          .error (.duplicateId i n (eid % 256)))
    ∧ readPalette 12 [0, 0, 5, 0, 0, 0, 0, 5, 1, 1, 1, 1] = .error (.duplicateId 1 2 5) := by
  refine ⟨?_, ?_, rfl⟩
  · intro segmentSize s p s2 h
    simp only [readPalette] at h
    split at h
    · exact Except.noConfusion h
    · split at h
      · split at h
        · rename_i entries s3 hrec
          simp only [Except.ok.injEq, Prod.mk.injEq] at h
          obtain ⟨h1, _⟩ := h
          subst h1
          exact (readPaletteEntries_ok _ _ _ _ _ _ _ hrec).2.1
        · exact Except.noConfusion h
      · exact Except.noConfusion h
      · exact Except.noConfusion h
  · intro n i r seen eid ey ecr ecb ea s1 h
    simp only [readPaletteEntries]
    rw [if_pos h]


/-- C1: For every presentation-composition segment, decoding succeeds only
if 11 + 8*objectCount + 8*croppedObjectCount equals the declared body
size; after parsing all composition-object records (and their optional
crop records), the parser fails with a SizeMismatch error whenever this
computed total differs from the declared body size, and a segment
declaring 1 non-cropped object with body size 19 succeeds. -/
theorem C1_pcs_size_check :
    (∀ segmentSize : Nat, ∀ s : Bytes, ∀ pc s2,
        readPresentationComposition segmentSize s = .ok (pc, s2) →
        11 + 8 * pc.objects.length + 8 * countCrops pc.objects = segmentSize)
    ∧ (∀ segmentSize w1 w2 h1 h2 fr n1 n2 cs puf pid oc : Nat, ∀ s1 : List Nat,
        ∀ objs size, ∀ s2 : Bytes,
        (cs % 256 = Normal ∨ cs % 256 = AcquisitionPoint ∨ cs % 256 = EpochStart) →
        (puf % 256) &&& (255 ^^^ pufTrue) = 0 →
        readCompositionObjects (oc % 256) 0 (oc % 256) 11 s1 = .ok (objs, size, s2) →
        size ≠ segmentSize →
        readPresentationComposition segmentSize
            (w1 :: w2 :: h1 :: h2 :: fr :: n1 :: n2 :: cs :: puf :: pid :: oc :: s1) =
          .error (.pcsSizeMismatch size segmentSize))
    ∧ readPresentationComposition 19
        [0, 0, 0, 0, 0, 0, 0, 0, 0, 0, 1, 0, 0, 0, 0, 0, 0, 0, 0] =
      .ok ({ width := 0, height := 0, frameRate := 0, compositionNumber := 0,
             compositionState := 0, paletteUpdate := false, paletteId := 0,
             objects := [{ objectId := 0, windowId := 0, x := 0, y := 0, crop := none }] },
           []) := by
  refine ⟨?_, ?_, rfl⟩
  · intro segmentSize s pc s2 h
    rcases s with _ | ⟨w1, _ | ⟨w2, _ | ⟨h1b, _ | ⟨h2b, _ | ⟨fr, _ | ⟨n1, _ | ⟨n2, _ | ⟨cs, _ | ⟨puf, _ | ⟨pid, _ | ⟨oc, s1⟩⟩⟩⟩⟩⟩⟩⟩⟩⟩⟩ <;>
      simp only [readPresentationComposition] at h <;> try exact Except.noConfusion h
    split at h
    · split at h
      · exact Except.noConfusion h
      · split at h
        · exact Except.noConfusion h
        · rename_i objs size s2a hrec
          split at h
          · exact Except.noConfusion h
          · rename_i hsz
            simp only [Except.ok.injEq, Prod.mk.injEq] at h
            obtain ⟨h1, _⟩ := h
            subst h1
            obtain ⟨hl, hs⟩ := readCompositionObjects_ok _ _ _ _ _ _ _ _ hrec
            simp only []
            omega
    · exact Except.noConfusion h
  · intro segmentSize w1 w2 h1b h2b fr n1 n2 cs puf pid oc s1 objs size s2 hcs hpuf hloop hne
    simp only [readPresentationComposition]
    rw [if_pos hcs, if_neg (by simp [hpuf]), hloop]
    simp [hne]

/-- C2: For every object segment, the payload length equals the declared
3-byte total-data-length minus 4; if total-data-length is less than 4 the
parser fails with an InvalidLength error, and total-data-length exactly 4
succeeds with a zero-length payload. -/
theorem C2_object_data_length :
    (∀ segmentSize o1 o2 ver sf l1 l2 l3 w1 w2 h1 h2 : Nat, ∀ s1 : List Nat, ∀ obj s2,
        readObject segmentSize
            (o1 :: o2 :: ver :: sf :: l1 :: l2 :: l3 :: w1 :: w2 :: h1 :: h2 :: s1) =
          .ok (obj, s2) →
        obj.objectData.length = be3 l1 l2 l3 - 4)
    ∧ (∀ segmentSize o1 o2 ver sf l1 l2 l3 w1 w2 h1 h2 : Nat, ∀ s1 : List Nat,
        (sf % 256) &&& (255 ^^^ (firstInSequence ||| lastInSequence)) = 0 →
        be3 l1 l2 l3 < 4 →
        readObject segmentSize
            (o1 :: o2 :: ver :: sf :: l1 :: l2 :: l3 :: w1 :: w2 :: h1 :: h2 :: s1) =
          .error .invalidDataLength)
    ∧ readObject 0 [0, 0, 0, 0, 0, 0, 4, 0, 0, 0, 0] =
        .ok ({ id := 0, version := 0, first := false, last := false,
               width := 0, height := 0, objectData := [] }, []) := by
  refine ⟨?_, ?_, rfl⟩
  · intro segmentSize o1 o2 ver sf l1 l2 l3 w1 w2 h1 h2 s1 obj s2 h
    simp only [readObject] at h
    split at h
    · exact Except.noConfusion h
    · split at h
      · exact Except.noConfusion h
      · split at h
        · rename_i data rem hrec
          simp only [Except.ok.injEq, Prod.mk.injEq] at h
          obtain ⟨h1, _⟩ := h
          subst h1
          exact readExactLoop_ok_length _ _ _ _ hrec
        · exact Except.noConfusion h
  · intro segmentSize o1 o2 ver sf l1 l2 l3 w1 w2 h1 h2 s1 hsf hlen
    simp only [readObject]
    rw [if_neg (by simp [hsf]), if_pos hlen]

/-- C8: For every composition object in a presentation-composition
segment, a Crop record is present in the decoded result if and only if the
object's crop-flag byte equals its single legal "forced" value, and any
crop-flag byte with bits set outside that value fails with an
UnrecognizedValue error; likewise the composition state must be one of its
three legal values and the palette-update flag byte must have no bits
outside its single legal "true" bit, each failing with UnrecognizedValue
otherwise. -/
theorem C8_flag_validation :
    (∀ n i r size o1 o2 w cf x1 x2 y1 y2 : Nat, ∀ s1 : List Nat,
        (cf % 256) &&& (255 ^^^ croppedForce) ≠ 0 →
        readCompositionObjects n i (r + 1) size
            (o1 :: o2 :: w :: cf :: x1 :: x2 :: y1 :: y2 :: s1) =
          .error (.badCropFlag (i + 1) n (cf % 256)))
    ∧ (∀ n i r size o1 o2 w cf x1 x2 y1 y2 : Nat, ∀ s1 : List Nat, ∀ objs size2, ∀ s2 : Bytes,
        readCompositionObjects n i (r + 1) size
            (o1 :: o2 :: w :: cf :: x1 :: x2 :: y1 :: y2 :: s1) = .ok (objs, size2, s2) →
        ∃ obj tail, objs = obj :: tail ∧ (obj.crop.isSome = true ↔ cf % 256 = croppedForce))
    ∧ (∀ segmentSize w1 w2 h1 h2 fr n1 n2 cs puf pid oc : Nat, ∀ s1 : List Nat,
        ¬(cs % 256 = Normal ∨ cs % 256 = AcquisitionPoint ∨ cs % 256 = EpochStart) →
        readPresentationComposition segmentSize
            (w1 :: w2 :: h1 :: h2 :: fr :: n1 :: n2 :: cs :: puf :: pid :: oc :: s1) =
          .error (.badCompositionState (cs % 256)))
    ∧ (∀ segmentSize w1 w2 h1 h2 fr n1 n2 cs puf pid oc : Nat, ∀ s1 : List Nat,
        (cs % 256 = Normal ∨ cs % 256 = AcquisitionPoint ∨ cs % 256 = EpochStart) →
        (puf % 256) &&& (255 ^^^ pufTrue) ≠ 0 →
        readPresentationComposition segmentSize
            (w1 :: w2 :: h1 :: h2 :: fr :: n1 :: n2 :: cs :: puf :: pid :: oc :: s1) =
          .error (.badPaletteUpdateFlag (puf % 256))) := by
  refine ⟨?_, ?_, ?_, ?_⟩
  · intro n i r size o1 o2 w cf x1 x2 y1 y2 s1 h
    simp only [readCompositionObjects]
    rw [if_pos h]
  · intro n i r size o1 o2 w cf x1 x2 y1 y2 s1 objs size2 s2 h
    simp only [readCompositionObjects] at h
    split at h
    · exact Except.noConfusion h
    · split at h
      · rename_i hbad heq
        split at h
        · split at h
          · rename_i objs1 sz1 s3 hrec
            simp only [Except.ok.injEq, Prod.mk.injEq] at h
            obtain ⟨h1, _⟩ := h
            refine ⟨_, _, h1.symm, ?_⟩
            simp [heq]
          · exact Except.noConfusion h
        · exact Except.noConfusion h
        · exact Except.noConfusion h
      · rename_i hbad heq
        split at h
        · rename_i objs1 sz1 s3 hrec
          simp only [Except.ok.injEq, Prod.mk.injEq] at h
          obtain ⟨h1, _⟩ := h
          refine ⟨_, _, h1.symm, ?_⟩
          simp [heq]
        · exact Except.noConfusion h
  · intro segmentSize w1 w2 h1b h2b fr n1 n2 cs puf pid oc s1 h
    simp only [readPresentationComposition]
    rw [if_neg h]
  · intro segmentSize w1 w2 h1b h2b fr n1 n2 cs puf pid oc s1 hcs hpuf
    simp only [readPresentationComposition]
    rw [if_pos hcs, if_pos hpuf]


/-- C6: ReadSegment fails with the EndOfStream signal (the bare eof error)
exactly when the source is exhausted before any header byte is read; a
source exhausted mid-header, a 2-byte magic value other than 0x5047, or a
type tag outside the five recognized values each fail with a
MalformedHeader-class error (headerErr, badMagic, badSegmentType) that is
a different error value than EndOfStream. -/
theorem C6_header_errors :
    (∀ s : Bytes, ReadSegment s = .error .eof ↔ s = [])
    ∧ (∀ s : Bytes, s ≠ [] → s.length < 13 →
        ReadSegment s = .error (.headerErr .unexpectedEOF))
    ∧ (∀ m1 m2 p1 p2 p3 p4 d1 d2 d3 d4 t z1 z2 : Nat, ∀ rest : List Nat,
        be2 m1 m2 ≠ 0x5047 →
        ReadSegment (m1 :: m2 :: p1 :: p2 :: p3 :: p4 :: d1 :: d2 :: d3 :: d4 ::
            t :: z1 :: z2 :: rest) = .error (.badMagic (be2 m1 m2)))
    ∧ (∀ m1 m2 p1 p2 p3 p4 d1 d2 d3 d4 t z1 z2 : Nat, ∀ rest : List Nat,
        be2 m1 m2 = 0x5047 →
        ¬(t % 256 = pcsType ∨ t % 256 = wdsType ∨ t % 256 = pdsType ∨
            t % 256 = odsType ∨ t % 256 = endType) →
        ReadSegment (m1 :: m2 :: p1 :: p2 :: p3 :: p4 :: d1 :: d2 :: d3 :: d4 ::
            t :: z1 :: z2 :: rest) = .error (.badSegmentType (t % 256))) := by
  refine ⟨?_, ?_, ?_, ?_⟩
  · intro s
    constructor
    · intro h
      rcases s with _ | ⟨m1, s⟩
      · rfl
      rcases s with _ | ⟨m2, s⟩
      · exact Err.noConfusion (Except.error.inj h)
      rcases s with _ | ⟨p1, s⟩
      · exact Err.noConfusion (Except.error.inj h)
      rcases s with _ | ⟨p2, s⟩
      · exact Err.noConfusion (Except.error.inj h)
      rcases s with _ | ⟨p3, s⟩
      · exact Err.noConfusion (Except.error.inj h)
      rcases s with _ | ⟨p4, s⟩
      · exact Err.noConfusion (Except.error.inj h)
      rcases s with _ | ⟨d1, s⟩
      · exact Err.noConfusion (Except.error.inj h)
      rcases s with _ | ⟨d2, s⟩
      · exact Err.noConfusion (Except.error.inj h)
      rcases s with _ | ⟨d3, s⟩
      · exact Err.noConfusion (Except.error.inj h)
      rcases s with _ | ⟨d4, s⟩
      · exact Err.noConfusion (Except.error.inj h)
      rcases s with _ | ⟨t, s⟩
      · exact Err.noConfusion (Except.error.inj h)
      rcases s with _ | ⟨z1, s⟩
      · exact Err.noConfusion (Except.error.inj h)
      rcases s with _ | ⟨z2, rest⟩
      · exact Err.noConfusion (Except.error.inj h)
      simp only [ReadSegment] at h
      split at h
      · exact Err.noConfusion (Except.error.inj h)
      · split at h
        · split at h
          · split at h
            · exact Except.noConfusion h
            · exact Err.noConfusion (Except.error.inj h)
          · split at h
            · split at h
              · exact Except.noConfusion h
              · exact Err.noConfusion (Except.error.inj h)
            · split at h
              · split at h
                · exact Except.noConfusion h
                · exact Err.noConfusion (Except.error.inj h)
              · split at h
                · split at h
                  · exact Except.noConfusion h
                  · exact Err.noConfusion (Except.error.inj h)
                · exact Except.noConfusion h
        · exact Err.noConfusion (Except.error.inj h)
    · intro h
      subst h
      rfl
  · intro s hne hlen
    rcases s with _ | ⟨m1, s⟩
    · exact absurd rfl hne
    rcases s with _ | ⟨m2, s⟩
    · rfl
    rcases s with _ | ⟨p1, s⟩
    · rfl
    rcases s with _ | ⟨p2, s⟩
    · rfl
    rcases s with _ | ⟨p3, s⟩
    · rfl
    rcases s with _ | ⟨p4, s⟩
    · rfl
    rcases s with _ | ⟨d1, s⟩
    · rfl
    rcases s with _ | ⟨d2, s⟩
    · rfl
    rcases s with _ | ⟨d3, s⟩
    · rfl
    rcases s with _ | ⟨d4, s⟩
    · rfl
    rcases s with _ | ⟨t, s⟩
    · rfl
    rcases s with _ | ⟨z1, s⟩
    · rfl
    rcases s with _ | ⟨z2, rest⟩
    · rfl
    exact absurd hlen (by simp)
  · intro m1 m2 p1 p2 p3 p4 d1 d2 d3 d4 t z1 z2 rest h
    simp only [ReadSegment]
    rw [if_pos h]
  · intro m1 m2 p1 p2 p3 p4 d1 d2 d3 d4 t z1 z2 rest hmagic htag
    simp only [ReadSegment]
    rw [if_neg (by simp [hmagic]), if_neg htag]

/-- C7: The object-payload read loop repeatedly reads from the source
(modelled as a list of chunks, one chunk served per read call) until
exactly the requested number of bytes have been accumulated, and fails by
propagating the underlying end-of-stream read error if and only if the
source ends before that many bytes are delivered; on success the payload
is exactly the next N source bytes, and readObject's decoded payload is
exactly the next N stream bytes after its header. -/
theorem C7_object_payload_loop :
    (∀ chunks : List (List Nat), ∀ need : Nat, need ≤ chunks.flatten.length →
        ∃ rem, readExactLoop chunks need = .ok (chunks.flatten.take need, rem) ∧
          rem.flatten = chunks.flatten.drop need)
    ∧ (∀ chunks : List (List Nat), ∀ need : Nat, chunks.flatten.length < need →
        readExactLoop chunks need = .error .eof)
    ∧ (∀ segmentSize o1 o2 ver sf l1 l2 l3 w1 w2 h1 h2 : Nat, ∀ s1 : List Nat, ∀ obj s2,
        readObject segmentSize
            (o1 :: o2 :: ver :: sf :: l1 :: l2 :: l3 :: w1 :: w2 :: h1 :: h2 :: s1) =
          .ok (obj, s2) →
        obj.objectData = s1.take (be3 l1 l2 l3 - 4) ∧ s2 = s1.drop (be3 l1 l2 l3 - 4))
    ∧ (∀ segmentSize o1 o2 ver sf l1 l2 l3 w1 w2 h1 h2 : Nat, ∀ s1 : List Nat,
        (sf % 256) &&& (255 ^^^ (firstInSequence ||| lastInSequence)) = 0 →
        4 ≤ be3 l1 l2 l3 →
        s1.length < be3 l1 l2 l3 - 4 →
        readObject segmentSize
            (o1 :: o2 :: ver :: sf :: l1 :: l2 :: l3 :: w1 :: w2 :: h1 :: h2 :: s1) =
          .error .eof) := by
  refine ⟨readExactLoop_complete, readExactLoop_short, ?_, ?_⟩
  · intro segmentSize o1 o2 ver sf l1 l2 l3 w1 w2 h1 h2 s1 obj s2 h
    simp only [readObject] at h
    split at h
    · exact Except.noConfusion h
    · split at h
      · exact Except.noConfusion h
      · split at h
        · rename_i data rem hrec
          by_cases hle : be3 l1 l2 l3 - 4 ≤ s1.length
          · obtain ⟨rem0, hok, hdrop⟩ := readExactLoop_complete [s1] (be3 l1 l2 l3 - 4)
              (by simpa using hle)
            rw [hok] at hrec
            simp only [Except.ok.injEq, Prod.mk.injEq] at hrec
            obtain ⟨hdata, hrem⟩ := hrec
            simp only [Except.ok.injEq, Prod.mk.injEq] at h
            obtain ⟨h1, h2⟩ := h
            subst h1
            subst h2
            constructor
            · simpa using hdata.symm
            · subst hrem
              simpa using hdrop
          · have := readExactLoop_short [s1] (be3 l1 l2 l3 - 4) (by simp; omega)
            rw [this] at hrec
            exact Except.noConfusion hrec
        · exact Except.noConfusion h
  · intro segmentSize o1 o2 ver sf l1 l2 l3 w1 w2 h1 h2 s1 hsf hge hshort
    simp only [readObject]
    rw [if_neg (by simp [hsf]), if_neg (by omega)]
    rw [readExactLoop_short [s1] (be3 l1 l2 l3 - 4) (by simpa using hshort)]

/-- C9: For every object segment, the declared 2-byte body size from the
segment header is never validated or used: readObject ignores its declared
size argument entirely, and two streams identical except for the object
segment's declared body size bytes decode to identical results with
identical remaining streams. -/
theorem C9_object_segment_size_unused :
    (∀ sz1 sz2 : Nat, ∀ s : Bytes, readObject sz1 s = readObject sz2 s)
    ∧ (∀ p1 p2 p3 p4 d1 d2 d3 d4 x1 x2 y1 y2 : Nat, ∀ body : List Nat,
        ReadSegment (0x50 :: 0x47 :: p1 :: p2 :: p3 :: p4 :: d1 :: d2 :: d3 :: d4 ::
            odsType :: x1 :: x2 :: body) =
        ReadSegment (0x50 :: 0x47 :: p1 :: p2 :: p3 :: p4 :: d1 :: d2 :: d3 :: d4 ::
            odsType :: y1 :: y2 :: body)) := by
  refine ⟨readObject_size_irrel, ?_⟩
  intro p1 p2 p3 p4 d1 d2 d3 d4 x1 x2 y1 y2 body
  simp only [ReadSegment]
  norm_num [be2, odsType, pcsType, wdsType, pdsType, endType]
  rw [readObject_size_irrel ((x1 % 256) * 256 + x2 % 256) ((y1 % 256) * 256 + y2 % 256) body]

/-- C10: For every end-marker segment, ReadSegment returns a segment whose
payload is empty and consumes exactly the 13 header bytes and no body
bytes, regardless of the declared body size: a nonzero declared body size
is accepted without validation and those body bytes are left unconsumed in
the stream. -/
theorem C10_end_segment_no_body :
    ∀ p1 p2 p3 p4 d1 d2 d3 d4 z1 z2 : Nat, ∀ rest : List Nat,
      ReadSegment (0x50 :: 0x47 :: p1 :: p2 :: p3 :: p4 :: d1 :: d2 :: d3 :: d4 ::
          endType :: z1 :: z2 :: rest) =
        .ok ({ presentationTime := ticksDuration (be4 p1 p2 p3 p4),
               decodingTime := ticksDuration (be4 d1 d2 d3 d4),
               data := .none }, rest) := by
  intro p1 p2 p3 p4 d1 d2 d3 d4 z1 z2 rest
  rfl


/-- Witness for C1: a concrete successful parse at body size 19 satisfies
the size identity, and a concrete mismatching declared size of 27 yields
the SizeMismatch error. -/
theorem C1_pcs_size_check_witness :
    (11 + 8 * 1 + 8 * 0 = 19)
    ∧ readPresentationComposition 27
        [0, 0, 0, 0, 0, 0, 0, 0, 0, 0, 1, 0, 0, 0, 0, 0, 0, 0, 0] =
      .error (.pcsSizeMismatch 19 27) := by
  constructor
  · have h := C1_pcs_size_check.1 19
      [0, 0, 0, 0, 0, 0, 0, 0, 0, 0, 1, 0, 0, 0, 0, 0, 0, 0, 0]
      { width := 0, height := 0, frameRate := 0, compositionNumber := 0,
        compositionState := 0, paletteUpdate := false, paletteId := 0,
        objects := [{ objectId := 0, windowId := 0, x := 0, y := 0, crop := none }] }
      [] rfl
    exact h
  · exact C1_pcs_size_check.2.1 27 0 0 0 0 0 0 0 0 0 0 1 [0, 0, 0, 0, 0, 0, 0, 0]
      [{ objectId := 0, windowId := 0, x := 0, y := 0, crop := none }] 19 []
      (Or.inl rfl) rfl rfl (by decide)

/-- Witness for C2: a concrete object segment with total-data-length 6 and
2 payload bytes satisfies the length identity, and total-data-length 2
yields the InvalidLength error. -/
theorem C2_object_data_length_witness :
    (2 = be3 0 0 6 - 4)
    ∧ readObject 0 [0, 0, 0, 0, 0, 0, 2, 0, 0, 0, 0] = .error .invalidDataLength := by
  constructor
  · have h := C2_object_data_length.1 0 0 0 0 0 0 0 6 0 0 0 0 [7, 8]
      { id := 0, version := 0, first := false, last := false,
        width := 0, height := 0, objectData := [7, 8] } [] rfl
    exact h
  · exact C2_object_data_length.2.1 0 0 0 0 0 0 0 2 0 0 0 0 [] rfl (by decide)

/-- Witness for C3: body size 3 fails with InvalidSize on any stream, and
the successful body-size-7 parse yields (7 - 2) / 5 = 1 entry. -/
theorem C3_palette_size_witness :
    readPalette 3 [] = .error (.pdsInvalidSize 3)
    ∧ (1 = (7 - 2) / 5) := by
  constructor
  · exact C3_palette_size.1 3 [] (by decide)
  · have h := C3_palette_size.2.1 7 [0, 0, 1, 2, 3, 4, 5]
      { id := 0, version := 0,
        entries := [{ id := 1, y := 2, cr := 3, cb := 4, alpha := 5 }] } [] rfl
    exact h

/-- Witness for C4: declared size 5 with count byte 0 fails with
SizeMismatch, and a successful 1-window parse at declared size 10 has the
stated count and size relation. -/
theorem C4_window_size_witness :
    readWindows 5 [0] = .error (.wdsSizeMismatch 5 1 0)
    ∧ ∃ wc rest, ([1, 0, 0, 0, 0, 0, 0, 0, 0, 0] : Bytes) = wc :: rest ∧
        ([{ id := 0, x := 0, y := 0, width := 0, height := 0 }] : List Window).length = wc % 256 ∧
        10 = 9 * (wc % 256) + 1 := by
  constructor
  · exact C4_window_size.1 5 0 [] (by decide)
  · exact C4_window_size.2.1 10 [1, 0, 0, 0, 0, 0, 0, 0, 0, 0]
      [{ id := 0, x := 0, y := 0, width := 0, height := 0 }] [] rfl

/-- Witness for C5: the successful one-entry palette has pairwise-distinct
entry IDs, and the entry loop fails with duplicateId at a concrete
repeated ID. -/
theorem C5_palette_duplicate_witness :
    (([({ id := 1, y := 2, cr := 3, cb := 4, alpha := 5 } : PaletteEntry)].map
        PaletteEntry.id).Nodup)
    ∧ readPaletteEntries 3 2 1 [5, 9] [5, 0, 0, 0, 0] = .error (.duplicateId 2 3 5) := by
  constructor
  · have h := C5_palette_duplicate.1 7 [0, 0, 1, 2, 3, 4, 5]
      { id := 0, version := 0,
        entries := [{ id := 1, y := 2, cr := 3, cb := 4, alpha := 5 }] } [] rfl
    exact h
  · exact C5_palette_duplicate.2.1 3 2 0 [5, 9] 5 0 0 0 0 [] (by decide)

/-- Witness for C6: the empty source gives eof; one spare byte gives the
wrapped mid-header error; a zero magic gives badMagic; tag 0x99 gives
badSegmentType. -/
theorem C6_header_errors_witness :
    ReadSegment [] = .error .eof
    ∧ ReadSegment [0x50] = .error (.headerErr .unexpectedEOF)
    ∧ ReadSegment [0, 0, 0, 0, 0, 0, 0, 0, 0, 0, 0x16, 0, 0] = .error (.badMagic 0)
    ∧ ReadSegment [0x50, 0x47, 0, 0, 0, 0, 0, 0, 0, 0, 0x99, 0, 0] =
        .error (.badSegmentType 0x99) := by
  refine ⟨(C6_header_errors.1 []).mpr rfl, ?_, ?_, ?_⟩
  · exact C6_header_errors.2.1 [0x50] (by decide) (by decide)
  · exact C6_header_errors.2.2.1 0 0 0 0 0 0 0 0 0 0 0x16 0 0 [] (by decide)
  · exact C6_header_errors.2.2.2 0x50 0x47 0 0 0 0 0 0 0 0 0x99 0 0 [] (by decide) (by decide)

/-- Witness for C7: the loop accumulates 3 bytes across two chunks; a
2-byte source fails for a 5-byte request; a concrete object segment's
payload is the next 2 stream bytes; and a truncated payload fails with the
propagated eof. -/
theorem C7_object_payload_loop_witness :
    (∃ rem, readExactLoop [[1, 2], [3, 4, 5]] 3 =
        .ok (([[1, 2], [3, 4, 5]] : List (List Nat)).flatten.take 3, rem) ∧
        rem.flatten = ([[1, 2], [3, 4, 5]] : List (List Nat)).flatten.drop 3)
    ∧ readExactLoop [[1], [2]] 5 = .error .eof
    ∧ (([7, 8] : List Nat) = ([7, 8, 9] : List Nat).take (be3 0 0 6 - 4)
        ∧ ([9] : List Nat) = ([7, 8, 9] : List Nat).drop (be3 0 0 6 - 4))
    ∧ readObject 0 [0, 0, 0, 0, 0, 0, 9, 0, 0, 0, 0] = .error .eof := by
  refine ⟨?_, ?_, ?_, ?_⟩
  · exact C7_object_payload_loop.1 [[1, 2], [3, 4, 5]] 3 (by decide)
  · exact C7_object_payload_loop.2.1 [[1], [2]] 5 (by decide)
  · have h := C7_object_payload_loop.2.2.1 0 0 0 0 0 0 0 6 0 0 0 0 [7, 8, 9]
      { id := 0, version := 0, first := false, last := false,
        width := 0, height := 0, objectData := [7, 8] } [9] rfl
    exact h
  · exact C7_object_payload_loop.2.2.2 0 0 0 0 0 0 0 9 0 0 0 0 [] rfl (by decide) (by decide)

/-- Witness for C8: crop flag 0x0f fails with badCropFlag; a cropped
object at flag 0x40 decodes with a Crop present; composition state 1 fails
with badCompositionState; palette-update flag 1 fails with
badPaletteUpdateFlag. -/
theorem C8_flag_validation_witness :
    readCompositionObjects 1 0 1 11 [0, 0, 0, 0x0f, 0, 0, 0, 0] =
      .error (.badCropFlag 1 1 0x0f)
    ∧ (∃ obj tail,
        ([{ objectId := 0, windowId := 0, x := 0, y := 0,
            crop := some { x := be2 1 1, y := be2 1 1, width := be2 1 1, height := be2 1 1 } }] :
          List CompositionObject) = obj :: tail ∧
        (obj.crop.isSome = true ↔ 0x40 % 256 = croppedForce))
    ∧ readPresentationComposition 19 [0, 0, 0, 0, 0, 0, 0, 1, 0, 0, 0] =
        .error (.badCompositionState 1)
    ∧ readPresentationComposition 19 [0, 0, 0, 0, 0, 0, 0, 0, 1, 0, 0] =
        .error (.badPaletteUpdateFlag 1) := by
  refine ⟨?_, ?_, ?_, ?_⟩
  · exact C8_flag_validation.1 1 0 0 11 0 0 0 0x0f 0 0 0 0 [] (by decide)
  · exact C8_flag_validation.2.1 1 0 0 11 0 0 0 0x40 0 0 0 0 [1, 1, 1, 1, 1, 1, 1, 1]
      [{ objectId := 0, windowId := 0, x := 0, y := 0,
         crop := some { x := be2 1 1, y := be2 1 1, width := be2 1 1, height := be2 1 1 } }]
      27 [] rfl
  · exact C8_flag_validation.2.2.1 19 0 0 0 0 0 0 0 1 0 0 0 [] (by decide)
  · exact C8_flag_validation.2.2.2 19 0 0 0 0 0 0 0 0 1 0 0 [] (Or.inl rfl) (by decide)

end PGS
